import Mathlib

/-!
lfwatch, Win32 backend: a shallow embedding of `lfwatch_win32.cpp`.

The file embeds the Win32 directory watcher of `src/src/lfwatch_win32.cpp`:
the two flag translators (`remap_file_notify`, `remap_file_action`), the walk
over the packed `FILE_NOTIFY_INFORMATION` records (`emit_events`), the
completion routine (`watch_callback`), arming and cancelling a watch
(`register_watch`, `cancel`) and the registry operations (`WatchWin32::watch`,
`WatchWin32::remove`).

Conventions of the embedding.

* `DWORD`, `uint32_t` and `size_t` values are natural numbers; a `DWORD` read
  from the buffer is below `2 ^ 32` by construction and the cursor addition is
  taken modulo `2 ^ 64`.
* Every call into the Win32 layer or into the user callback is recorded, in
  program order, in a list of `Call`s returned next to the new state.
* What the native layer decides (whether `CreateFile` yields a handle, whether
  `ReadDirectoryChangesW` accepts the request, which event handle
  `CreateEvent` returns) is an explicit argument of the operation.
* A read outside `info_buf` is undefined behaviour in C++; the walk records
  every range it dereferences and reports `defined := false` at the first
  range that leaves the buffer.
-/

namespace lfw

/-! ## Constants -/

/-- The enumerators of `lfw::Notify` used by `lfwatch_win32.cpp`. Their values
are declared in the portable header, which is not among the sources, so they
are a parameter of the embedding. -/
structure Notify where
  FILE_MODIFIED : Nat
  FILE_CREATED : Nat
  FILE_REMOVED : Nat
  FILE_RENAMED_OLD_NAME : Nat
  FILE_RENAMED_NEW_NAME : Nat
deriving DecidableEq, Repr

/-- A sample numbering of `lfw::Notify` with one bit per enumerator, used to
evaluate the embedding on concrete inputs. -/
def Notify.bits : Notify :=
  { FILE_MODIFIED := 1, FILE_CREATED := 2, FILE_REMOVED := 4,
    FILE_RENAMED_OLD_NAME := 8, FILE_RENAMED_NEW_NAME := 16 }

/-- `FILE_NOTIFY_CHANGE_FILE_NAME` of `winnt.h`. -/
def FILE_NOTIFY_CHANGE_FILE_NAME : Nat := 0x1
/-- `FILE_NOTIFY_CHANGE_LAST_WRITE` of `winnt.h`. -/
def FILE_NOTIFY_CHANGE_LAST_WRITE : Nat := 0x10

/-- `FILE_ACTION_ADDED` of `winnt.h`. -/
def FILE_ACTION_ADDED : Nat := 1
/-- `FILE_ACTION_REMOVED` of `winnt.h`. -/
def FILE_ACTION_REMOVED : Nat := 2
/-- `FILE_ACTION_MODIFIED` of `winnt.h`. -/
def FILE_ACTION_MODIFIED : Nat := 3
/-- `FILE_ACTION_RENAMED_OLD_NAME` of `winnt.h`. -/
def FILE_ACTION_RENAMED_OLD_NAME : Nat := 4
/-- `FILE_ACTION_RENAMED_NEW_NAME` of `winnt.h`. -/
def FILE_ACTION_RENAMED_NEW_NAME : Nat := 5

/-- `ERROR_SUCCESS` of `winerror.h`. -/
def ERROR_SUCCESS : Nat := 0
/-- `ERROR_OPERATION_ABORTED` of `winerror.h`. -/
def ERROR_OPERATION_ABORTED : Nat := 995

/-- `MAX_PATH` of `minwindef.h`. -/
def MAX_PATH : Nat := 260

/-! ## Flag translation -/

/-- The function `remap_file_notify` (lines 30-41). A C++ condition `x` is
true when `x` is non-zero; the last disjunct of the second condition is the
bare enumerator `Notify::FILE_RENAMED_NEW_NAME`, as in the source. -/
def remap_file_notify (N : Notify) (mask : Nat) : Nat :=
  let remap := 0
  let remap :=
    if mask &&& N.FILE_MODIFIED ≠ 0 then remap ||| FILE_NOTIFY_CHANGE_LAST_WRITE else remap
  let remap :=
    if mask &&& N.FILE_CREATED ≠ 0 ∨ mask &&& N.FILE_REMOVED ≠ 0
        ∨ mask &&& N.FILE_RENAMED_OLD_NAME ≠ 0 ∨ N.FILE_RENAMED_NEW_NAME ≠ 0
    then remap ||| FILE_NOTIFY_CHANGE_FILE_NAME else remap
  remap

/-- The function `remap_file_action` (lines 43-58): the `switch` over the
native action code. -/
def remap_file_action (N : Notify) (action : Nat) : Nat :=
  if action = FILE_ACTION_MODIFIED then N.FILE_MODIFIED
  else if action = FILE_ACTION_ADDED then N.FILE_CREATED
  else if action = FILE_ACTION_REMOVED then N.FILE_REMOVED
  else if action = FILE_ACTION_RENAMED_OLD_NAME then N.FILE_RENAMED_OLD_NAME
  else if action = FILE_ACTION_RENAMED_NEW_NAME then N.FILE_RENAMED_NEW_NAME
  else 0

/-! ## Data model -/

/-- A Win32 `HANDLE`, by its identity. -/
abbrev HANDLE := Nat

/-- The type `Callback` of the portable header (a `std::function` taking an
`EventData`), by its identity: invoking it is recorded as a `Call.callback`. -/
abbrev Callback := Nat

/-- The aggregate `EventData{watch.dir_name, fname, watch.filter, action}`
built at line 89, field by field in that order. -/
structure EventData where
  dir : String
  fname : List Nat
  filter : Nat
  action : Nat
deriving DecidableEq, Repr

/-- The part of the Win32 `OVERLAPPED` block the program touches: the event
handle stored by the constructor of `WatchData`, and the number of reads
issued with this block that the native layer has not completed yet (the
block's internal in-flight state, owned by the native layer). -/
structure OVERLAPPED where
  hEvent : HANDLE
  pending : Nat
deriving DecidableEq, Repr

/-- The struct `WatchData` as `lfwatch_win32.cpp` uses it: the members of the
header (lines 21-30) plus the `callback` member that the constructor at
lines 124-129 initialises. `info_buf` is the `std::array<char, 4 * 1024>`,
one natural number per byte. -/
structure WatchData where
  overlapped : OVERLAPPED
  dir_handle : HANDLE
  info_buf : List Nat
  dir_name : String
  filter : Nat
  callback : Callback
deriving DecidableEq, Repr

/-- The size of `WatchData::info_buf`, `4 * 1024` bytes. -/
def INFO_BUF_SIZE : Nat := 4 * 1024

/-- One call that leaves the program: a Win32 function, the user callback, or
a line written to `std::cerr`. `ReadDirectoryChangesW` carries the handle, the
buffer size, the native filter and, as a ghost value, how many reads were
already outstanding on the same `OVERLAPPED` block when it was called. -/
inductive Call where
  | CreateFile (dir : String)
  | CreateEvent
  | ReadDirectoryChangesW (h : HANDLE) (size : Nat) (flags : Nat) (outstanding : Nat)
  | SetEvent (e : HANDLE)
  | ResetEvent (e : HANDLE)
  | CancelIo (h : HANDLE)
  | MsgWaitForMultipleObjectsEx
  | WaitForSingleObject (e : HANDLE)
  | CloseHandle (h : HANDLE)
  | callback (cb : Callback) (e : EventData)
  | cerr (msg : String)
deriving DecidableEq, Repr

/-! ## The notification buffer -/

/-- The byte of `buf` at index `i`, as an unsigned value. -/
def byte (buf : List Nat) (i : Nat) : Nat := buf.getD i 0 % 256

/-- The little-endian `DWORD` stored in `buf` at index `i`. -/
def dword (buf : List Nat) (i : Nat) : Nat :=
  byte buf i + 256 * byte buf (i + 1) + 65536 * byte buf (i + 2)
    + 16777216 * byte buf (i + 3)

/-- The field `NextEntryOffset` of the `FILE_NOTIFY_INFORMATION` at `off`. -/
def NextEntryOffset (buf : List Nat) (off : Nat) : Nat := dword buf off
/-- The field `Action` of the `FILE_NOTIFY_INFORMATION` at `off`. -/
def Action (buf : List Nat) (off : Nat) : Nat := dword buf (off + 4)
/-- The field `FileNameLength` of the `FILE_NOTIFY_INFORMATION` at `off`. -/
def FileNameLength (buf : List Nat) (off : Nat) : Nat := dword buf (off + 8)

/-- The vector `wfname` of lines 80-82: `FileNameLength / 2 + 1` zeroed wide
characters over which `memcpy` lays the `FileNameLength` bytes that start at
the field `FileName` (12 bytes into the record). -/
def wfname (buf : List Nat) (off : Nat) : List Nat :=
  let len := FileNameLength buf off
  (List.range (len / 2 + 1)).map fun j =>
    (if 2 * j < len then byte buf (off + 12 + 2 * j) else 0)
      + 256 * (if 2 * j + 1 < len then byte buf (off + 12 + 2 * j + 1) else 0)

/-- The array `fname` of lines 83-84 read as a C string. The C library's
`wcstombs` depends on the locale, so it is a parameter: `wcstombs src n` is
the bytes it stores for the wide string `src` when told to store at most `n`.
`fname` has `MAX_PATH + 1` zeroed bytes, so the string ends at the first zero
byte or after `MAX_PATH` bytes. -/
def fname (wcstombs : List Nat → Nat → List Nat) (buf : List Nat) (off : Nat) : List Nat :=
  ((wcstombs (wfname buf off) MAX_PATH).take MAX_PATH).takeWhile (fun b => b ≠ 0)

/-- A sample `wcstombs`, the "C" locale: a wide character below 256 becomes
the byte of the same value, and the conversion stops at the terminating zero,
at a wide character it cannot convert, or after `n` bytes. -/
def wcstombs_C (src : List Nat) (n : Nat) : List Nat :=
  (src.takeWhile (fun c => c ≠ 0 ∧ c < 256)).take n

/-- What `emit_events` did on a buffer: the cursor values at which the loop
body ran, the ranges `(start, length)` of `info_buf` it dereferenced, the
callback invocations, whether every range lay inside the buffer (`defined`),
and whether the loop ended within the iterations the embedding allots it
(`finished`). -/
structure Walk where
  visited : List Nat
  reads : List (Nat × Nat)
  calls : List Call
  defined : Bool
  finished : Bool
deriving DecidableEq, Repr

/-- The walk of one more record in front of the walk `w` of the rest. -/
def Walk.after (off len : Nat) (call : List Call) (w : Walk) : Walk :=
  { visited := off :: w.visited,
    reads := (off, 12) :: (off + 12, len) :: w.reads,
    calls := call ++ w.calls,
    defined := w.defined,
    finished := w.finished }

/-- The `do ... while` loop of `emit_events` (lines 73-92) with the cursor at
`offset` and `fuel` further iterations allotted. The header fields are read at
`offset`, the cursor is advanced by `NextEntryOffset` (`size_t` arithmetic),
`FileNameLength` bytes of payload are copied, the action is remapped and, if
it shares a bit with `watch.filter`, the callback is invoked; the loop goes on
while `NextEntryOffset` is not zero. The source checks no bound: a header or
payload that leaves `info_buf` ends the walk here with `defined := false`. -/
def emit_loop (N : Notify) (wcstombs : List Nat → Nat → List Nat) (watch : WatchData) :
    Nat → Nat → Walk
  | fuel, offset =>
    let buf := watch.info_buf
    if offset + 12 ≤ buf.length then
      let next := NextEntryOffset buf offset
      let offset' := (offset + next) % 2 ^ 64
      let len := FileNameLength buf offset
      if offset + 12 + len ≤ buf.length then
        let action := remap_file_action N (Action buf offset)
        let call :=
          if action &&& watch.filter ≠ 0 then
            [Call.callback watch.callback
              { dir := watch.dir_name, fname := fname wcstombs buf offset,
                filter := watch.filter, action := action }]
          else []
        if next ≠ 0 then
          match fuel with
          | 0 =>
            { visited := [offset], reads := [(offset, 12), (offset + 12, len)],
              calls := call, defined := true, finished := false }
          | fuel + 1 => Walk.after offset len call (emit_loop N wcstombs watch fuel offset')
        else
          { visited := [offset], reads := [(offset, 12), (offset + 12, len)],
            calls := call, defined := true, finished := true }
      else
        { visited := [offset], reads := [(offset, 12), (offset + 12, len)],
          calls := [], defined := false, finished := true }
    else
      { visited := [offset], reads := [(offset, 12)],
        calls := [], defined := false, finished := true }

/-- The function `emit_events` (lines 70-93): the loop started at offset 0.
Each iteration that continues moves the cursor forward inside the buffer, so
`info_buf.size()` iterations are allotted. -/
def emit_events (N : Notify) (wcstombs : List Nat → Nat → List Nat) (watch : WatchData) : Walk :=
  emit_loop N wcstombs watch watch.info_buf.length 0

/-! ## Arming, completing and cancelling a watch -/

/-- What the native layer answers during one operation: the handle returned
by `CreateFile` (`none` for `INVALID_HANDLE_VALUE`), the handle returned by
`CreateEvent`, the result of `ReadDirectoryChangesW`, the result of `CancelIo`
(`true` for non-zero) and whether `WaitForSingleObject` returned
`WAIT_FAILED`. -/
structure Native where
  handle : Option HANDLE
  hEvent : HANDLE
  status : Bool
  cancelled : Bool
  wait_failed : Bool
deriving DecidableEq, Repr

/-- The function `register_watch` (lines 60-69): `memset` clears the buffer,
then `ReadDirectoryChangesW` is called with the remapped filter. When the call
is accepted one more read is outstanding on `watch.overlapped`; otherwise an
error line is written. The text the operating system supplies for the error
code is not part of the recorded line. -/
def register_watch (N : Notify) (status : Bool) (watch : WatchData) : WatchData × List Call :=
  let watch := { watch with info_buf := List.replicate watch.info_buf.length 0 }
  let call := Call.ReadDirectoryChangesW watch.dir_handle watch.info_buf.length
    (remap_file_notify N watch.filter) watch.overlapped.pending
  if status then
    ({ watch with
        overlapped := { watch.overlapped with pending := watch.overlapped.pending + 1 } },
      [call])
  else
    (watch, [call, Call.cerr ("lfw Error: could not register watch on " ++ watch.dir_name)])

/-- The result of the completion routine: the watch afterwards, the calls it
made, and whether the walk over the buffer stayed inside it. -/
structure Completion where
  watch : WatchData
  calls : List Call
  defined : Bool
deriving DecidableEq, Repr

/-- The function `watch_callback` (lines 94-107), for the watch that the
`overlapped` argument points into. `status` is the answer of the
`ReadDirectoryChangesW` call made when the watch is registered again. The
byte count `num_bytes` is not read by the source. -/
def watch_callback (N : Notify) (wcstombs : List Nat → Nat → List Nat) (status : Bool)
    (err num_bytes : Nat) (watch : WatchData) : Completion :=
  let _unread := num_bytes
  let set := [Call.SetEvent watch.overlapped.hEvent]
  if err = ERROR_SUCCESS then
    let walk := emit_events N wcstombs watch
    let armed := register_watch N status watch
    { watch := armed.1,
      calls := set ++ walk.calls ++ armed.2 ++ [Call.ResetEvent watch.overlapped.hEvent],
      defined := walk.defined }
  else if err ≠ ERROR_OPERATION_ABORTED then
    { watch := watch, calls := set ++ [Call.cerr "lfw Error: watch callback error"],
      defined := true }
  else
    { watch := watch, calls := set, defined := true }

/-- The constructor of `WatchData` (lines 124-129): the four members are
initialised from the arguments, `overlapped` is cleared and gets the event
handle returned by `CreateEvent`. The constructor leaves `info_buf`
uninitialised; `register_watch` clears it before it is ever read, and it is
all zero here. -/
def WatchData.new (handle : HANDLE) (dir : String) (filter : Nat) (cb : Callback)
    (hEvent : HANDLE) : WatchData :=
  { overlapped := { hEvent := hEvent, pending := 0 },
    dir_handle := handle,
    info_buf := List.replicate INFO_BUF_SIZE 0,
    dir_name := dir,
    filter := filter,
    callback := cb }

/-! ## The registry -/

/-- The member `watchers`, a `std::map<std::string, WatchData>`: at most one
value per key, so a partial function on the keys. -/
abbrev Watchers := String → Option WatchData

/-- The assignment through an iterator of the map: the value at `dir`
becomes `w`. -/
def Watchers.assign (ws : Watchers) (dir : String) (w : WatchData) : Watchers :=
  fun k => if k = dir then some w else ws k

/-- The call `std::map::emplace`: the pair is inserted only when the key is
absent; the result is the map and the element the returned iterator points
to, which is the element already present when there is one. -/
def Watchers.emplace (ws : Watchers) (dir : String) (w : WatchData) : Watchers × WatchData :=
  match ws dir with
  | some old => (ws, old)
  | none => (Watchers.assign ws dir w, w)

/-- The class `WatchWin32`: its one data member. -/
structure WatchWin32 where
  watchers : Watchers

/-- The constructor `WatchWin32::WatchWin32` (line 131): no watch. -/
def WatchWin32.new : WatchWin32 := { watchers := fun _ => none }

/-- The part of `WatchWin32::watch` after the first `if` (lines 145-155):
`CreateFile`, the early return on `INVALID_HANDLE_VALUE`, `emplace` of a new
`WatchData` and `register_watch` on the element `emplace` returned. -/
def WatchWin32.open_watch (N : Notify) (self : WatchWin32) (dir : String) (filters : Nat)
    (callback : Callback) (env : Native) : WatchWin32 × List Call :=
  match env.handle with
  | none => (self, [Call.CreateFile dir, Call.cerr ("lfw Error: failed to create handle for " ++ dir)])
  | some handle =>
    let it := Watchers.emplace self.watchers dir (WatchData.new handle dir filters callback env.hEvent)
    let armed := register_watch N env.status it.2
    ({ watchers := Watchers.assign it.1 dir armed.1 },
      [Call.CreateFile dir, Call.CreateEvent] ++ armed.2)

/-- The method `WatchWin32::watch` (lines 137-156). -/
def WatchWin32.watch (N : Notify) (self : WatchWin32) (dir : String) (filters : Nat)
    (callback : Callback) (env : Native) : WatchWin32 × List Call :=
  match self.watchers dir with
  | some fnd =>
    if fnd.filter ≠ filters then
      let armed := register_watch N env.status { fnd with filter := filters, callback := callback }
      ({ watchers := Watchers.assign self.watchers dir armed.1 }, armed.2)
    else WatchWin32.open_watch N self dir filters callback env
  | none => WatchWin32.open_watch N self dir filters callback env

/-- The record at `off` lies inside the buffer: its 12-byte header and its
`FileNameLength` bytes of payload. -/
def record_inside (buf : List Nat) (off : Nat) : Bool :=
  decide (off + 12 + FileNameLength buf off ≤ buf.length)

/-- The list `offs` is the chain of packed records of `buf` that starts at
`off`: there is at least one record, every record lies inside the buffer,
every `NextEntryOffset` but the last is positive and leads to the next
record, and the last one is zero. -/
def packed (buf : List Nat) : Nat → List Nat → Bool
  | _, [] => false
  | off, [o] => o == off && record_inside buf off && NextEntryOffset buf off == 0
  | off, o :: o2 :: rest =>
    o == off && record_inside buf off && NextEntryOffset buf off != 0
      && packed buf (off + NextEntryOffset buf off) (o2 :: rest)

/-- The record at `off` is wanted by the watch: its remapped action has a bit
in common with `watch.filter`. -/
def wanted (N : Notify) (watch : WatchData) (off : Nat) : Bool :=
  decide (remap_file_action N (Action watch.info_buf off) &&& watch.filter ≠ 0)

/-- The callback invocation for the record at `off`: the callback of the
watch on the watch's directory, the record's file name, the watch's filter
and the record's remapped action. -/
def delivery (N : Notify) (wcstombs : List Nat → Nat → List Nat) (watch : WatchData)
    (off : Nat) : Call :=
  Call.callback watch.callback
    { dir := watch.dir_name, fname := fname wcstombs watch.info_buf off,
      filter := watch.filter, action := remap_file_action N (Action watch.info_buf off) }

/-- The ranges `emit_events` reads for the record at `off`. -/
def record_reads (buf : List Nat) (off : Nat) : List (Nat × Nat) :=
  [(off, 12), (off + 12, FileNameLength buf off)]

/-- A call is an invocation of the user callback. -/
def Call.isCallback : Call → Bool
  | Call.callback _ _ => true
  | _ => false

/-- A call is a `ReadDirectoryChangesW`. -/
def Call.isRead : Call → Bool
  | Call.ReadDirectoryChangesW _ _ _ _ => true
  | _ => false

/-- A 4096-byte buffer with three packed records: `ab` added at offset 0,
`c` with the unknown action code 9 at offset 20, `d` removed at offset 36. -/
def sample_buf : List Nat :=
  [20, 0, 0, 0, 1, 0, 0, 0, 4, 0, 0, 0, 97, 0, 98, 0, 0, 0, 0, 0,
   16, 0, 0, 0, 9, 0, 0, 0, 2, 0, 0, 0, 99, 0, 0, 0,
   0, 0, 0, 0, 2, 0, 0, 0, 2, 0, 0, 0, 100, 0] ++ List.replicate 4046 0

/-- A watch on directory `d` whose buffer is `sample_buf` and whose filter is
`filter`. -/
def sample_watch (filter : Nat) : WatchData :=
  { overlapped := { hEvent := 7, pending := 0 }, dir_handle := 3, info_buf := sample_buf,
    dir_name := "d", filter := filter, callback := 5 }

/-- Answers of the native layer in which every call succeeds. -/
def sample_env : Native :=
  { handle := some 3, hEvent := 7, status := true, cancelled := true, wait_failed := false }

/-- Answers of the native layer in which `CreateFile` yields no handle. -/
def failing_env : Native :=
  { handle := none, hEvent := 7, status := true, cancelled := true, wait_failed := false }

/-- Answers of the native layer in which every call succeeds and `CreateFile`
and `CreateEvent` yield handles other than those of `sample_env`. -/
def second_env : Native :=
  { handle := some 4, hEvent := 8, status := true, cancelled := true, wait_failed := false }

/-- The registry with one watch, on the directory `e` with filter 2 and
callback 5, every native call having succeeded. -/
def sample_registry : WatchWin32 :=
  (WatchWin32.watch Notify.bits WatchWin32.new "e" 2 5 sample_env).1

/-! ## Sequences of steps in which no path is watched twice -/

theorem byte_replicate_zero (n i : Nat) : byte (List.replicate n 0) i = 0 := by
  unfold byte
  by_cases h : i < n
  · simp [List.getD, List.getElem?_replicate, h]
  · simp [List.getD, List.getElem?_replicate, h]

theorem dword_replicate_zero (n i : Nat) : dword (List.replicate n 0) i = 0 := by
  simp [dword, byte_replicate_zero]

/-! ## Flag translation: theorems -/

/-- C2 (evaluation of the code): whenever `Notify::FILE_RENAMED_NEW_NAME` is
not zero, `remap_file_notify` sets `FILE_NOTIFY_CHANGE_FILE_NAME` for every
mask, because the last disjunct of the condition does not test the mask. In
particular the empty mask does not map to 0. -/
theorem remap_file_notify_sets_file_name (N : Notify) (mask : Nat)
    (h : N.FILE_RENAMED_NEW_NAME ≠ 0) :
    remap_file_notify N mask
        = (if mask &&& N.FILE_MODIFIED ≠ 0 then FILE_NOTIFY_CHANGE_LAST_WRITE else 0)
            ||| FILE_NOTIFY_CHANGE_FILE_NAME
      ∧ remap_file_notify N 0 = FILE_NOTIFY_CHANGE_FILE_NAME := by
  constructor
  · simp [remap_file_notify, h]
  · simp [remap_file_notify, h]

/-- C2, at the sample numbering: the empty mask maps to
`FILE_NOTIFY_CHANGE_FILE_NAME` and the mask `FILE_MODIFIED` maps to both
native bits. -/
theorem remap_file_notify_sets_file_name_witness :
    Notify.bits.FILE_RENAMED_NEW_NAME ≠ 0
      ∧ remap_file_notify Notify.bits 0 = 1
      ∧ remap_file_notify Notify.bits Notify.bits.FILE_MODIFIED = 0x11 :=
  ⟨by decide,
   (remap_file_notify_sets_file_name Notify.bits 0 (by decide)).2,
   by decide⟩

/-! ## The walk over the buffer: lemmas -/

/-- One iteration of the loop on a record that lies inside the buffer. -/
theorem emit_loop_inside (N : Notify) (wcstombs : List Nat → Nat → List Nat) (watch : WatchData)
    (fuel offset : Nat) (h : record_inside watch.info_buf offset = true) :
    emit_loop N wcstombs watch (fuel + 1) offset
      = if NextEntryOffset watch.info_buf offset ≠ 0 then
          Walk.after offset (FileNameLength watch.info_buf offset)
            (if wanted N watch offset then [delivery N wcstombs watch offset] else [])
            (emit_loop N wcstombs watch fuel
              ((offset + NextEntryOffset watch.info_buf offset) % 2 ^ 64))
        else
          { visited := [offset], reads := record_reads watch.info_buf offset,
            calls := if wanted N watch offset then [delivery N wcstombs watch offset] else [],
            defined := true, finished := true } := by
  have h2 : offset + 12 + FileNameLength watch.info_buf offset ≤ watch.info_buf.length := by
    simpa [record_inside] using h
  have h1 : offset + 12 ≤ watch.info_buf.length := by omega
  rw [emit_loop]
  simp only [h1, h2, if_true, wanted, delivery, record_reads, decide_eq_true_eq]

/-- The walk over a chain of packed records: it visits the records of the
chain, reads their headers and payloads, and invokes the callback for the
wanted ones. -/
theorem emit_loop_packed (N : Notify) (wcstombs : List Nat → Nat → List Nat) (watch : WatchData)
    (hsize : watch.info_buf.length < 2 ^ 64) :
    ∀ (offs : List Nat) (fuel offset : Nat),
      packed watch.info_buf offset offs = true → watch.info_buf.length ≤ offset + fuel →
      emit_loop N wcstombs watch fuel offset
        = { visited := offs,
            reads := offs.flatMap (record_reads watch.info_buf),
            calls := (offs.filter (wanted N watch)).map (delivery N wcstombs watch),
            defined := true, finished := true } := by
  intro offs
  induction offs with
  | nil => intro fuel offset h; simp [packed] at h
  | cons o rest ih =>
    intro fuel offset h hfuel
    cases rest with
    | nil =>
      simp only [packed, Bool.and_eq_true, beq_iff_eq] at h
      obtain ⟨⟨ho, hin⟩, hnext⟩ := h
      subst ho
      have hin2 : o + 12 + FileNameLength watch.info_buf o ≤ watch.info_buf.length := by
        simpa [record_inside] using hin
      obtain ⟨f, rfl⟩ : ∃ f, fuel = f + 1 := ⟨fuel - 1, by omega⟩
      rw [emit_loop_inside N wcstombs watch f o hin]
      by_cases hw : wanted N watch o = true <;> simp [hnext, hw, record_reads]
    | cons o2 rest2 =>
      simp only [packed, Bool.and_eq_true, beq_iff_eq, bne_iff_ne] at h
      obtain ⟨⟨⟨ho, hin⟩, hnext⟩, hrest⟩ := h
      subst ho
      have hin2 : o + 12 + FileNameLength watch.info_buf o ≤ watch.info_buf.length := by
        simpa [record_inside] using hin
      obtain ⟨f, rfl⟩ : ∃ f, fuel = f + 1 := ⟨fuel - 1, by omega⟩
      have hin3 : o + NextEntryOffset watch.info_buf o + 12 ≤ watch.info_buf.length := by
        cases rest2 with
        | nil =>
          simp only [packed, Bool.and_eq_true, beq_iff_eq, record_inside,
            decide_eq_true_eq] at hrest
          omega
        | cons o3 rest3 =>
          simp only [packed, Bool.and_eq_true, beq_iff_eq, record_inside,
            decide_eq_true_eq] at hrest
          omega
      have hmod : (o + NextEntryOffset watch.info_buf o) % 2 ^ 64
          = o + NextEntryOffset watch.info_buf o := Nat.mod_eq_of_lt (by omega)
      have hpos : 0 < NextEntryOffset watch.info_buf o := Nat.pos_of_ne_zero hnext
      rw [emit_loop_inside N wcstombs watch f o hin, hmod,
        ih f (o + NextEntryOffset watch.info_buf o) hrest (by omega)]
      by_cases hw : wanted N watch o = true <;>
        simp [hnext, hw, Walk.after, record_reads, List.filter_cons]

/-- The loop on a record that lies inside the buffer when no further
iteration is allotted. -/
theorem emit_loop_inside_zero (N : Notify) (wcstombs : List Nat → Nat → List Nat)
    (watch : WatchData) (offset : Nat) (h : record_inside watch.info_buf offset = true) :
    emit_loop N wcstombs watch 0 offset
      = { visited := [offset], reads := record_reads watch.info_buf offset,
          calls := if wanted N watch offset then [delivery N wcstombs watch offset] else [],
          defined := true,
          finished := decide (NextEntryOffset watch.info_buf offset = 0) } := by
  have h2 : offset + 12 + FileNameLength watch.info_buf offset ≤ watch.info_buf.length := by
    simpa [record_inside] using h
  have h1 : offset + 12 ≤ watch.info_buf.length := by omega
  rw [emit_loop]
  by_cases hn : NextEntryOffset watch.info_buf offset = 0 <;>
    simp [h1, h2, hn, wanted, delivery, record_reads]

/-- The loop on a record that does not lie inside the buffer: the walk ends
there, undefined, after reading the header and, when the header is inside,
the payload. -/
theorem emit_loop_outside (N : Notify) (wcstombs : List Nat → Nat → List Nat)
    (watch : WatchData) (fuel offset : Nat) (h : record_inside watch.info_buf offset = false) :
    emit_loop N wcstombs watch fuel offset
      = { visited := [offset],
          reads := if offset + 12 ≤ watch.info_buf.length then record_reads watch.info_buf offset
            else [(offset, 12)],
          calls := [], defined := false, finished := true } := by
  have h2 : ¬ offset + 12 + FileNameLength watch.info_buf offset ≤ watch.info_buf.length := by
    simpa [record_inside] using h
  rw [emit_loop]
  by_cases h1 : offset + 12 ≤ watch.info_buf.length <;> simp [h1, h2, record_reads]

/-- Every call made by the walk is an invocation of the callback. -/
theorem emit_loop_calls_callback (N : Notify) (wcstombs : List Nat → Nat → List Nat)
    (watch : WatchData) :
    ∀ (fuel offset : Nat) (c : Call),
      c ∈ (emit_loop N wcstombs watch fuel offset).calls → c.isCallback = true := by
  intro fuel
  induction fuel with
  | zero =>
    intro offset c hc
    cases hin : record_inside watch.info_buf offset with
    | false => simp [emit_loop_outside N wcstombs watch 0 offset hin] at hc
    | true =>
      rw [emit_loop_inside_zero N wcstombs watch offset hin] at hc
      by_cases hw : wanted N watch offset = true
      · simp [hw] at hc
        subst hc
        rfl
      · simp [hw] at hc
  | succ f ih =>
    intro offset c hc
    cases hin : record_inside watch.info_buf offset with
    | false => simp [emit_loop_outside N wcstombs watch (f + 1) offset hin] at hc
    | true =>
      rw [emit_loop_inside N wcstombs watch f offset hin] at hc
      by_cases hn : NextEntryOffset watch.info_buf offset = 0 <;>
        by_cases hw : wanted N watch offset = true <;>
        simp [hn, hw, Walk.after] at hc
      · subst hc; rfl
      · rcases hc with hc | hc
        · subst hc; rfl
        · exact ih _ _ hc
      · exact ih _ _ hc

/-! ## The walk over the buffer: theorems -/

/-- C1: on a buffer that holds the chain `offs` of packed records from
offset 0 (at least one record, all inside the buffer, every `NextEntryOffset`
positive and leading to the next record except the last, which is zero),
`emit_events` ends, stays inside the buffer, visits exactly the records of
`offs` in order, and its callback invocations are exactly the deliveries of
the records whose remapped action shares a bit with `watch.filter`, in the
same order, whatever the filter. -/
theorem emit_events_packed (N : Notify) (wcstombs : List Nat → Nat → List Nat)
    (watch : WatchData) (offs : List Nat)
    (hsize : watch.info_buf.length < 2 ^ 64)
    (h : packed watch.info_buf 0 offs = true) :
    1 ≤ offs.length
      ∧ (emit_events N wcstombs watch).visited = offs
      ∧ (emit_events N wcstombs watch).calls
          = (offs.filter (wanted N watch)).map (delivery N wcstombs watch)
      ∧ (emit_events N wcstombs watch).defined = true
      ∧ (emit_events N wcstombs watch).finished = true := by
  have hw := emit_loop_packed N wcstombs watch hsize offs watch.info_buf.length 0 h (by omega)
  refine ⟨?_, ?_, ?_, ?_, ?_⟩
  · cases offs with
    | nil => simp [packed] at h
    | cons o rest => simp
  all_goals simp [emit_events, hw]

/-- C1, on the sample buffer with every portable bit in the filter: the three
records at 0, 20 and 36 are visited, the record at 20 (unknown action) is
dropped and the records around it are delivered. -/
theorem emit_events_packed_witness :
    (sample_watch 31).info_buf.length < 2 ^ 64
      ∧ packed (sample_watch 31).info_buf 0 [0, 20, 36] = true
      ∧ (emit_events Notify.bits wcstombs_C (sample_watch 31)).visited = [0, 20, 36]
      ∧ (emit_events Notify.bits wcstombs_C (sample_watch 31)).calls
          = [Call.callback 5 ⟨"d", [97, 98], 31, 2⟩, Call.callback 5 ⟨"d", [100], 31, 4⟩] :=
  ⟨by decide!, by decide!,
   (emit_events_packed Notify.bits wcstombs_C (sample_watch 31) [0, 20, 36]
      (by decide!) (by decide!)).2.1,
   by decide!⟩

theorem remap_file_action_zero (N : Notify) (action : Nat)
    (h : action ∉ [FILE_ACTION_ADDED, FILE_ACTION_REMOVED, FILE_ACTION_MODIFIED,
      FILE_ACTION_RENAMED_OLD_NAME, FILE_ACTION_RENAMED_NEW_NAME]) :
    remap_file_action N action = 0 := by
  simp only [List.mem_cons, List.mem_singleton, List.not_mem_nil, or_false, not_or] at h
  obtain ⟨h1, h2, h3, h4, h5⟩ := h
  simp [remap_file_action, h1, h2, h3, h4, h5]

theorem emit_events_zero_buffer (N : Notify) (wcstombs : List Nat → Nat → List Nat)
    (watch : WatchData) (n : Nat) (hn : 12 ≤ n) (hbuf : watch.info_buf = List.replicate n 0) :
    emit_events N wcstombs watch
      = { visited := [0], reads := [(0, 12), (12, 0)], calls := [], defined := true,
          finished := true } := by
  have hlen : watch.info_buf.length = n := by simp [hbuf]
  have hname : FileNameLength watch.info_buf 0 = 0 := by
    simp [FileNameLength, hbuf, dword_replicate_zero]
  have hnext : NextEntryOffset watch.info_buf 0 = 0 := by
    simp [NextEntryOffset, hbuf, dword_replicate_zero]
  have hact : Action watch.info_buf 0 = 0 := by
    simp [Action, hbuf, dword_replicate_zero]
  have hin : record_inside watch.info_buf 0 = true := by
    simp [record_inside, hname, hlen, hn]
  have hw : wanted N watch 0 = false := by
    simp [wanted, hact, remap_file_action_zero N 0 (by decide)]
  obtain ⟨f, hf⟩ : ∃ f, watch.info_buf.length = f + 1 := ⟨n - 1, by omega⟩
  rw [emit_events, hf, emit_loop_inside N wcstombs watch f 0 hin]
  simp [hnext, hw, record_reads, hname]

/-- C3: `remap_file_action` maps the five native action codes to
`FILE_CREATED`, `FILE_REMOVED`, `FILE_MODIFIED`, `FILE_RENAMED_OLD_NAME` and
`FILE_RENAMED_NEW_NAME` in that order and every other code to 0; a record
with another code is wanted under no filter, and the iteration of the walk on
such a record, when it lies inside the buffer, invokes no callback and goes
on at the cursor advanced by `NextEntryOffset` (or ends the walk when
`NextEntryOffset` is zero). -/
theorem remap_file_action_codes (N : Notify) :
    remap_file_action N FILE_ACTION_ADDED = N.FILE_CREATED
      ∧ remap_file_action N FILE_ACTION_REMOVED = N.FILE_REMOVED
      ∧ remap_file_action N FILE_ACTION_MODIFIED = N.FILE_MODIFIED
      ∧ remap_file_action N FILE_ACTION_RENAMED_OLD_NAME = N.FILE_RENAMED_OLD_NAME
      ∧ remap_file_action N FILE_ACTION_RENAMED_NEW_NAME = N.FILE_RENAMED_NEW_NAME
      ∧ (∀ action : Nat,
          action ∉ [FILE_ACTION_ADDED, FILE_ACTION_REMOVED, FILE_ACTION_MODIFIED,
            FILE_ACTION_RENAMED_OLD_NAME, FILE_ACTION_RENAMED_NEW_NAME] →
          remap_file_action N action = 0)
      ∧ (∀ (wcstombs : List Nat → Nat → List Nat) (watch : WatchData) (fuel offset : Nat),
          record_inside watch.info_buf offset = true →
          Action watch.info_buf offset ∉ [FILE_ACTION_ADDED, FILE_ACTION_REMOVED,
            FILE_ACTION_MODIFIED, FILE_ACTION_RENAMED_OLD_NAME, FILE_ACTION_RENAMED_NEW_NAME] →
          wanted N watch offset = false
            ∧ emit_loop N wcstombs watch (fuel + 1) offset
                = if NextEntryOffset watch.info_buf offset ≠ 0 then
                    Walk.after offset (FileNameLength watch.info_buf offset) []
                      (emit_loop N wcstombs watch fuel
                        ((offset + NextEntryOffset watch.info_buf offset) % 2 ^ 64))
                  else
                    { visited := [offset], reads := record_reads watch.info_buf offset,
                      calls := [], defined := true, finished := true }) := by
  refine ⟨by simp [remap_file_action, FILE_ACTION_ADDED, FILE_ACTION_MODIFIED],
    by simp [remap_file_action, FILE_ACTION_REMOVED, FILE_ACTION_MODIFIED, FILE_ACTION_ADDED],
    by simp [remap_file_action],
    by simp [remap_file_action, FILE_ACTION_RENAMED_OLD_NAME, FILE_ACTION_REMOVED,
      FILE_ACTION_MODIFIED, FILE_ACTION_ADDED],
    by simp [remap_file_action, FILE_ACTION_RENAMED_NEW_NAME, FILE_ACTION_RENAMED_OLD_NAME,
      FILE_ACTION_REMOVED, FILE_ACTION_MODIFIED, FILE_ACTION_ADDED],
    remap_file_action_zero N, ?_⟩
  intro wcstombs watch fuel offset hin hcode
  have hw : wanted N watch offset = false := by
    simp [wanted, remap_file_action_zero N _ hcode]
  refine ⟨hw, ?_⟩
  rw [emit_loop_inside N wcstombs watch fuel offset hin]
  simp [hw]

/-- C3, on the sample buffer: the record at offset 20 has the action code 9,
which maps to 0, and the walk from that record passes it without a callback
and delivers the record at 36. -/
theorem remap_file_action_codes_witness :
    Action (sample_watch 31).info_buf 20 = 9
      ∧ remap_file_action Notify.bits 9 = 0
      ∧ wanted Notify.bits (sample_watch 31) 20 = false
      ∧ emit_loop Notify.bits wcstombs_C (sample_watch 31) 1 20
          = ⟨[20, 36], [(20, 12), (32, 2), (36, 12), (48, 2)],
              [Call.callback 5 ⟨"d", [100], 31, 4⟩], true, true⟩ :=
  ⟨by decide!,
   (remap_file_action_codes Notify.bits).2.2.2.2.2.1 9 (by decide),
   ((remap_file_action_codes Notify.bits).2.2.2.2.2.2 wcstombs_C (sample_watch 31) 0 20
      (by decide!) (by decide!)).1,
   by decide!⟩

/-! ## The completion routine: theorems -/

/-- The calls of `register_watch`: one `ReadDirectoryChangesW`, followed by
an error line when the call is refused. -/
theorem register_watch_calls (N : Notify) (status : Bool) (watch : WatchData) :
    (register_watch N status watch).2
      = Call.ReadDirectoryChangesW watch.dir_handle watch.info_buf.length
          (remap_file_notify N watch.filter) watch.overlapped.pending
        :: (if status then []
            else [Call.cerr ("lfw Error: could not register watch on " ++ watch.dir_name)]) := by
  cases status <;> simp [register_watch]

/-- The watch after `register_watch`: the buffer is cleared, and one more
read is outstanding when the call is accepted. -/
theorem register_watch_watch (N : Notify) (status : Bool) (watch : WatchData) :
    (register_watch N status watch).1
      = { watch with
          info_buf := List.replicate watch.info_buf.length 0,
          overlapped :=
            { watch.overlapped with
              pending := watch.overlapped.pending + (if status then 1 else 0) } } := by
  cases status <;> simp [register_watch]

/-- C9: `watch_callback` calls `ReadDirectoryChangesW` exactly when the
status is `ERROR_SUCCESS`. On success its calls are `SetEvent`, then the
callback invocations of the walk over the buffer, then the calls of
`register_watch` (one read), then `ResetEvent`, so every dispatch precedes the
re-arm. On `ERROR_OPERATION_ABORTED` and on every other status no callback is
invoked, no read is issued and the watch is left as it was. -/
theorem watch_callback_rearms (N : Notify) (wcstombs : List Nat → Nat → List Nat)
    (status : Bool) (err num_bytes : Nat) (watch : WatchData) :
    ((watch_callback N wcstombs status err num_bytes watch).calls.any Call.isRead = true
        ↔ err = ERROR_SUCCESS)
      ∧ (err = ERROR_SUCCESS →
          (watch_callback N wcstombs status err num_bytes watch).calls
              = [Call.SetEvent watch.overlapped.hEvent]
                ++ (emit_events N wcstombs watch).calls
                ++ (register_watch N status watch).2
                ++ [Call.ResetEvent watch.overlapped.hEvent]
            ∧ (∀ c ∈ (emit_events N wcstombs watch).calls,
                c.isCallback = true ∧ c.isRead = false)
            ∧ (∀ c ∈ (register_watch N status watch).2
                  ++ [Call.ResetEvent watch.overlapped.hEvent], c.isCallback = false)
            ∧ ((register_watch N status watch).2.filter Call.isRead).length = 1
            ∧ (watch_callback N wcstombs status err num_bytes watch).watch
                = (register_watch N status watch).1)
      ∧ (err ≠ ERROR_SUCCESS →
          (watch_callback N wcstombs status err num_bytes watch).calls.any Call.isCallback
              = false
            ∧ (watch_callback N wcstombs status err num_bytes watch).calls.any Call.isRead
              = false
            ∧ (watch_callback N wcstombs status err num_bytes watch).watch = watch) := by
  have hwalk : ∀ c ∈ (emit_events N wcstombs watch).calls,
      c.isCallback = true ∧ c.isRead = false := by
    intro c hc
    have h := emit_loop_calls_callback N wcstombs watch _ _ c hc
    cases c <;> simp_all [Call.isCallback, Call.isRead]
  have hfail : err ≠ ERROR_SUCCESS →
      (watch_callback N wcstombs status err num_bytes watch).calls.any Call.isCallback = false
        ∧ (watch_callback N wcstombs status err num_bytes watch).calls.any Call.isRead = false
        ∧ (watch_callback N wcstombs status err num_bytes watch).watch = watch := by
    intro h
    rw [watch_callback]
    simp only [h, if_false]
    by_cases ha : err = ERROR_OPERATION_ABORTED <;> simp [ha, Call.isCallback, Call.isRead]
  refine ⟨⟨?_, ?_⟩, ?_, hfail⟩
  · intro h
    by_contra hne
    rw [(hfail hne).2.1] at h
    exact Bool.false_ne_true h
  · intro h
    simp [watch_callback, h, register_watch_calls, Call.isRead]
  · intro h
    refine ⟨by simp [watch_callback, h], hwalk, ?_, ?_, by simp [watch_callback, h]⟩
    · intro c hc
      rw [register_watch_calls] at hc
      cases status
      · simp at hc
        obtain rfl | rfl | rfl := hc <;> rfl
      · simp at hc
        obtain rfl | rfl := hc <;> rfl
    · rw [register_watch_calls]
      cases status <;> simp [Call.isRead]

/-- C9, on the sample watch: a successful completion dispatches the two
wanted records, then issues one read; an aborted and a failed completion
dispatch nothing and issue no read. -/
theorem watch_callback_rearms_witness :
    (watch_callback Notify.bits wcstombs_C true ERROR_SUCCESS 50 (sample_watch 31)).calls
        = [Call.SetEvent 7,
           Call.callback 5 ⟨"d", [97, 98], 31, 2⟩, Call.callback 5 ⟨"d", [100], 31, 4⟩,
           Call.ReadDirectoryChangesW 3 4096 0x11 0, Call.ResetEvent 7]
      ∧ (watch_callback Notify.bits wcstombs_C true ERROR_OPERATION_ABORTED 0
          (sample_watch 31)).calls.any Call.isRead = false
      ∧ (watch_callback Notify.bits wcstombs_C true 5 0 (sample_watch 31)).calls.any
          Call.isCallback = false :=
  ⟨by decide!,
   ((watch_callback_rearms Notify.bits wcstombs_C true ERROR_OPERATION_ABORTED 0
      (sample_watch 31)).2.2 (by decide)).2.1,
   ((watch_callback_rearms Notify.bits wcstombs_C true 5 0 (sample_watch 31)).2.2
      (by decide)).1⟩

/-- C4 (as the code behaves): a successful completion on a buffer that is
still all zero, whatever `num_bytes` is, makes `watch_callback` invoke the
callback not at all: its calls are `SetEvent`, the calls of `register_watch`
(one read) and `ResetEvent`. The walk reads the one all-zero record at
offset 0 and stays inside the buffer. -/
theorem watch_callback_zero_buffer (N : Notify) (wcstombs : List Nat → Nat → List Nat)
    (status : Bool) (num_bytes : Nat) (watch : WatchData)
    (hbuf : watch.info_buf = List.replicate INFO_BUF_SIZE 0) :
    (watch_callback N wcstombs status ERROR_SUCCESS num_bytes watch).calls
        = [Call.SetEvent watch.overlapped.hEvent]
          ++ (register_watch N status watch).2
          ++ [Call.ResetEvent watch.overlapped.hEvent]
      ∧ ((watch_callback N wcstombs status ERROR_SUCCESS num_bytes watch).calls.filter
          Call.isCallback).length = 0
      ∧ ((watch_callback N wcstombs status ERROR_SUCCESS num_bytes watch).calls.filter
          Call.isRead).length = 1
      ∧ (watch_callback N wcstombs status ERROR_SUCCESS num_bytes watch).defined = true := by
  have hwalk := emit_events_zero_buffer N wcstombs watch INFO_BUF_SIZE (by decide) hbuf
  have hcalls : (watch_callback N wcstombs status ERROR_SUCCESS num_bytes watch).calls
      = [Call.SetEvent watch.overlapped.hEvent]
        ++ (register_watch N status watch).2
        ++ [Call.ResetEvent watch.overlapped.hEvent] := by
    simp [watch_callback, hwalk]
  refine ⟨hcalls, ?_, ?_, by simp [watch_callback, hwalk]⟩
  · rw [hcalls, register_watch_calls]
    cases status <;> simp [Call.isCallback]
  · rw [hcalls, register_watch_calls]
    cases status <;> simp [Call.isRead]

/-- C4, on a freshly constructed watch: the completion with `num_bytes = 0`
makes three calls, none of them to the callback. -/
theorem watch_callback_zero_buffer_witness :
    (WatchData.new 3 "d" 31 5 7).info_buf = List.replicate INFO_BUF_SIZE 0
      ∧ (watch_callback Notify.bits wcstombs_C true ERROR_SUCCESS 0
          (WatchData.new 3 "d" 31 5 7)).calls
          = [Call.SetEvent 7, Call.ReadDirectoryChangesW 3 4096 0x11 0, Call.ResetEvent 7] :=
  ⟨rfl,
   (watch_callback_zero_buffer Notify.bits wcstombs_C true 0 (WatchData.new 3 "d" 31 5 7)
      rfl).1.trans (by decide!)⟩

/-- C4, counterexample: on a freshly armed watch (buffer all zero) a
successful completion with `num_bytes = 0` reports nothing to the callback,
so the number of reports is not one. -/
theorem watch_callback_overflow_unreported :
    ¬ ((watch_callback Notify.bits wcstombs_C true ERROR_SUCCESS 0
        (WatchData.new 3 "d" 31 5 7)).calls.filter Call.isCallback).length = 1 := by
  decide!

/-! ## The registry: theorems -/

/-- C7: when `dir` has no entry and `CreateFile` yields no handle, `watch`
returns the registry it was given (so `dir` still has no entry and every other
entry is as before); its only calls are `CreateFile` and the error line, and
no `ReadDirectoryChangesW` is among them. -/
theorem watch_open_failure (N : Notify) (self : WatchWin32) (dir : String) (filters : Nat)
    (callback : Callback) (env : Native)
    (hnew : self.watchers dir = none) (hfail : env.handle = none) :
    (WatchWin32.watch N self dir filters callback env).1 = self
      ∧ (WatchWin32.watch N self dir filters callback env).1.watchers dir = none
      ∧ (∀ q : String,
          (WatchWin32.watch N self dir filters callback env).1.watchers q = self.watchers q)
      ∧ (WatchWin32.watch N self dir filters callback env).2
          = [Call.CreateFile dir, Call.cerr ("lfw Error: failed to create handle for " ++ dir)]
      ∧ (WatchWin32.watch N self dir filters callback env).2.any Call.isRead = false := by
  have h : WatchWin32.watch N self dir filters callback env
      = (self, [Call.CreateFile dir,
          Call.cerr ("lfw Error: failed to create handle for " ++ dir)]) := by
    simp [WatchWin32.watch, WatchWin32.open_watch, hnew, hfail]
  rw [h]
  exact ⟨rfl, hnew, fun _ => rfl, rfl, rfl⟩

/-- C7, on the registry that watches `e`: a failed `watch` on `d` makes two
calls and leaves the entry of `e` and the absence of `d` as they were. -/
theorem watch_open_failure_witness :
    sample_registry.watchers "d" = none
      ∧ failing_env.handle = none
      ∧ (WatchWin32.watch Notify.bits sample_registry "d" 3 6 failing_env).1 = sample_registry
      ∧ (WatchWin32.watch Notify.bits sample_registry "d" 3 6 failing_env).2
          = [Call.CreateFile "d", Call.cerr "lfw Error: failed to create handle for d"] :=
  ⟨by decide!, rfl,
   (watch_open_failure Notify.bits sample_registry "d" 3 6 failing_env (by decide!) rfl).1,
   (watch_open_failure Notify.bits sample_registry "d" 3 6 failing_env (by decide!) rfl).2.2.2.1⟩

/-- The entry of a path after `watch` is called on it while it has the entry
`fnd`: there is one entry, with the filter `filters` and the handle of `fnd`;
its callback is the requested one when the filter of `fnd` differs from
`filters` (lines 140-142) and the callback of `fnd` otherwise. Every other
path has the entry it had. -/
theorem watch_existing_entry (N : Notify) (self : WatchWin32) (dir : String) (filters : Nat)
    (callback : Callback) (env : Native) (fnd : WatchData)
    (h : self.watchers dir = some fnd) :
    (∃ w : WatchData,
        (WatchWin32.watch N self dir filters callback env).1.watchers dir = some w
          ∧ w.filter = filters
          ∧ w.callback = (if fnd.filter ≠ filters then callback else fnd.callback)
          ∧ w.dir_handle = fnd.dir_handle
          ∧ w.overlapped.hEvent = fnd.overlapped.hEvent)
      ∧ ∀ q : String, q ≠ dir →
          (WatchWin32.watch N self dir filters callback env).1.watchers q = self.watchers q := by
  by_cases hf : fnd.filter = filters
  · cases hh : env.handle with
    | none =>
      refine ⟨⟨fnd, ?_, hf, by simp [hf], rfl, rfl⟩, ?_⟩
      · simp [WatchWin32.watch, WatchWin32.open_watch, h, hf, hh]
      · intro q _
        simp [WatchWin32.watch, WatchWin32.open_watch, h, hf, hh]
    | some handle =>
      refine ⟨⟨(register_watch N env.status fnd).1, ?_, ?_, ?_, ?_, ?_⟩, ?_⟩
      · simp [WatchWin32.watch, WatchWin32.open_watch, Watchers.emplace, Watchers.assign,
          h, hf, hh]
      · simp [register_watch_watch, hf]
      · simp [register_watch_watch, hf]
      · simp [register_watch_watch]
      · simp [register_watch_watch]
      · intro q hq
        simp [WatchWin32.watch, WatchWin32.open_watch, Watchers.emplace, Watchers.assign,
          h, hf, hh, hq]
  · refine ⟨⟨(register_watch N env.status
        { fnd with filter := filters, callback := callback }).1, ?_, ?_, ?_, ?_, ?_⟩, ?_⟩
    · simp [WatchWin32.watch, Watchers.assign, h, hf]
    · simp [register_watch_watch]
    · simp [register_watch_watch, hf]
    · simp [register_watch_watch]
    · simp [register_watch_watch]
    · intro q hq
      simp [WatchWin32.watch, Watchers.assign, h, hf, hq]

/-- The branch of lines 139-143 on the registry that watches `e` with filter
2 and callback 5: a request with filter 3 and callback 6 installs both and
makes no call but the read. -/
theorem watch_other_filter_installs :
    ((WatchWin32.watch Notify.bits sample_registry "e" 3 6 second_env).1.watchers "e").map
        (fun w => (w.filter, w.callback)) = some (3, 6)
      ∧ (WatchWin32.watch Notify.bits sample_registry "e" 3 6 second_env).2
          = [Call.ReadDirectoryChangesW 3 4096 0x11 1] := by
  decide!

/-- C6 (evaluation of the code): `watch` on a path whose entry `fnd` already
has the requested filter does not install the requested callback. The branch
of lines 139-143 is skipped and lines 145-155 run: a new handle and a new
event are obtained, a `WatchData` with the requested callback is built, and
`emplace` keeps the element that is there. The entry keeps the callback, the
handle and the event of `fnd`, and when `CreateFile` succeeds the calls are
`CreateFile`, `CreateEvent` and the calls of `register_watch` on `fnd`, so the
new handle and event are neither stored nor closed. -/
theorem watch_same_filter_keeps_callback (N : Notify) (self : WatchWin32) (dir : String)
    (filters : Nat) (callback : Callback) (env : Native) (fnd : WatchData)
    (h : self.watchers dir = some fnd) (hf : fnd.filter = filters) :
    ((WatchWin32.watch N self dir filters callback env).1.watchers dir).map
        WatchData.callback = some fnd.callback
      ∧ ((WatchWin32.watch N self dir filters callback env).1.watchers dir).map
        WatchData.dir_handle = some fnd.dir_handle
      ∧ ((WatchWin32.watch N self dir filters callback env).1.watchers dir).map
        (fun w => w.overlapped.hEvent) = some fnd.overlapped.hEvent
      ∧ ∀ handle : HANDLE, env.handle = some handle →
          (WatchWin32.watch N self dir filters callback env).2
            = [Call.CreateFile dir, Call.CreateEvent] ++ (register_watch N env.status fnd).2 := by
  obtain ⟨⟨w, hw, _, hcb, hh, he⟩, _⟩ :=
    watch_existing_entry N self dir filters callback env fnd h
  refine ⟨by simp [hw, hcb, hf], by simp [hw, hh], by simp [hw, he], ?_⟩
  intro handle hhandle
  simp [WatchWin32.watch, WatchWin32.open_watch, Watchers.emplace, h, hf, hhandle]

/-- C6, on the registry that watches `e` with filter 2 and callback 5 on the
handle 3: after `watch` on `e` with the same filter 2 and the callback 6 the
entry still has the callback 5, not 6; the handle 4 that `CreateFile` returned
is in no entry and in no later call, and the read is issued on the handle 3
while the first read is outstanding. -/
theorem watch_same_filter_keeps_callback_witness :
    sample_registry.watchers "e"
        = some { WatchData.new 3 "e" 2 5 7 with overlapped := { hEvent := 7, pending := 1 } }
      ∧ ((WatchWin32.watch Notify.bits sample_registry "e" 2 6 second_env).1.watchers "e").map
          WatchData.callback = some 5
      ∧ ¬ ((WatchWin32.watch Notify.bits sample_registry "e" 2 6 second_env).1.watchers "e").map
          WatchData.callback = some 6
      ∧ ((WatchWin32.watch Notify.bits sample_registry "e" 2 6 second_env).1.watchers "e").map
          WatchData.dir_handle = some 3
      ∧ (WatchWin32.watch Notify.bits sample_registry "e" 2 6 second_env).2
          = [Call.CreateFile "e", Call.CreateEvent, Call.ReadDirectoryChangesW 3 4096 0x1 1] :=
  ⟨by decide!,
   (watch_same_filter_keeps_callback Notify.bits sample_registry "e" 2 6 second_env
      { WatchData.new 3 "e" 2 5 7 with overlapped := { hEvent := 7, pending := 1 } }
      (by decide!) rfl).1,
   by decide!,
   (watch_same_filter_keeps_callback Notify.bits sample_registry "e" 2 6 second_env
      { WatchData.new 3 "e" 2 5 7 with overlapped := { hEvent := 7, pending := 1 } }
      (by decide!) rfl).2.1,
   by decide!⟩

/-! ## The walk over the buffer: bounds -/

end lfw
